import Mathlib

/-!
# Verification of the juliet parameter-transform / likelihood-composition engine

This file gives a shallow embedding, over `ℝ`, of the core of `src/juliet.py`
(the prior transform, the geometry reparametrizer, the eccentricity resolver,
the feasibility gates, the GP hyperparameter marshaling and the white-noise
likelihood aggregator of `loglike`), and proves the specification claims
about it.

Conventions of the embedding:
* Python floats are modelled as real numbers (`ℝ`);
* the module-level mutable dictionaries (`priors[...]['cvalue']` and
  `radvel_params`) are modelled as explicit state of type `String → ℝ`,
  threaded through the evaluation;
* external oracles (`batman`'s light curve, `radvel`'s RV model, the
  `celerite`/`george` GP objects, `utils.transform_*`) are abstract function
  parameters — they are out of scope per the specification;
* indexing into the numpy data arrays is modelled by functions `ℕ → ℝ`
  together with per-instrument index lists.
-/

open Real

namespace Juliet

/-- Constant `log2pi = np.log(2.*np.pi)` (src/juliet.py line 615). -/
noncomputable def log2pi : ℝ := Real.log (2 * Real.pi)

/-- Gravitational constant `G = 6.67408e-11` in mks units (line 640). -/
noncomputable def Gconst : ℝ := 6.67408e-11

/-- Maximum eccentricity limit `ecclim = 0.95` (line 643). -/
noncomputable def ecclim : ℝ := 0.95

/-- The feasibility floor value `-1e101` returned by `loglike` for
infeasible samples (lines 665, 667, 718, 734, 800, 802, 824). -/
noncomputable def floor_sentinel : ℝ := -1e101

/-- Function `gaussian_log_likelihood(residuals, errors, jitter)` (lines 616–618):
`taus = 1./(errors**2 + jitter**2)` and the result is
`-0.5*(len(residuals)*log2pi + np.sum(np.log(1./taus) + taus*residuals**2))`.
The numpy elementwise arithmetic is modelled by zipping the two lists. -/
noncomputable def gaussian_log_likelihood (residuals errors : List ℝ) (jitter : ℝ) : ℝ :=
  let taus := errors.map (fun e => 1 / (e ^ 2 + jitter ^ 2));
  -0.5 * ((residuals.length : ℝ) * log2pi +
    ((taus.zip residuals).map (fun tr => Real.log (1 / tr.1) + tr.1 * tr.2 ^ 2)).sum)

/-- Helper for the period-ordering gate: the loop body for planets after the
first (lines 661–667 / 796–802).  `cP` is the running period; a planet with
period `P` passes only when `cP < P`, and after the update the code rejects
when the updated `cP` is negative. -/
noncomputable def periodGateAux (cP : ℝ) : List ℝ → Bool
  | [] => true
  | P :: rest => if cP < P then (if P < 0 then false else periodGateAux P rest) else false

/-- The period-ordering gate of `loglike` (lines 655–667 for the transit
context, 790–802 for the RV context; both blocks are identical): iterate the
planets' resolved periods in numbering order; the first planet only sets
`cP` and is rejected when `cP < 0`; each later planet must satisfy
`cP < P` and is then rejected when `P < 0`.  Returns `true` when the sample
passes the gate. -/
noncomputable def periodGate : List ℝ → Bool
  | [] => true
  | P0 :: rest => if P0 < 0 then false else periodGateAux P0 rest

/-- Constant `Ar = (pu - pl)/(2. + pl + pu)` (line 146), the branch threshold of the
efficient `(b,p)` sampling scheme. -/
noncomputable def Ar (pl pu : ℝ) : ℝ := (pu - pl) / (2 + pl + pu)

/-- The efficient `(b,p)` sampling transform (lines 692–697): maps the
sampled `(r1, r2)` to the impact parameter `b` and radius ratio `p`,
branching on `r1 > Ar`. -/
noncomputable def efficient_bp_transform (pl pu r1 r2 : ℝ) : ℝ × ℝ :=
  if r1 > Ar pl pu then
    ((1 + pl) * (1 + (r1 - 1) / (1 - Ar pl pu)),
     (1 - r2) * pl + r2 * pu)
  else
    ((1 + pl) + Real.sqrt (r1 / Ar pl pu) * r2 * (pu - pl),
     pu + (pl - pu) * Real.sqrt (r1 / Ar pl pu) * (1 - r2))

/-- Scaled semi-major axis from the stellar density and the period:
`a = ((rho*G*((P*24.*3600.)**2))/(3.*np.pi))**(1./3.)` (lines 691, 707). -/
noncomputable def a_from_rho (rho P : ℝ) : ℝ :=
  ((rho * Gconst * (P * 24 * 3600) ^ 2) / (3 * Real.pi)) ^ ((1 : ℝ) / 3)

/-- Numpy `arctan2 y x`: the angle of the point `(x, y)`, in `(-π, π]`,
modelled by the argument of the complex number `x + y·i`. -/
noncomputable def arctan2 (y x : ℝ) : ℝ := Complex.arg ⟨x, y⟩

/-- The eccentricity resolver for the transit context (lines 708–715),
reading the per-planet current values from the parameter state `cv`.
`tagf i` is `ecc_parametrization['transit'][i]`: `0` = direct `(e, ω)`,
`1` = `(e·cos ω, e·sin ω)`, `2` = `(√e·cos ω, √e·sin ω)`.  In this context
the resolved `ω` is in degrees (the `atan2` results are scaled by
`180/π`). -/
noncomputable def resolve_ecc_transit (tagf : ℕ → ℕ) (cv : String → ℝ) (i : ℕ) : ℝ × ℝ :=
  if tagf i = 0 then
    (cv ("ecc_p" ++ toString i), cv ("omega_p" ++ toString i))
  else if tagf i = 1 then
    (Real.sqrt (cv ("ecosomega_p" ++ toString i) ^ 2 + cv ("esinomega_p" ++ toString i) ^ 2),
     arctan2 (cv ("esinomega_p" ++ toString i)) (cv ("ecosomega_p" ++ toString i)) * 180 / Real.pi)
  else
    (cv ("secosomega_p" ++ toString i) ^ 2 + cv ("sesinomega_p" ++ toString i) ^ 2,
     arctan2 (cv ("sesinomega_p" ++ toString i)) (cv ("secosomega_p" ++ toString i)) * 180 / Real.pi)

/-- The eccentricity resolver for the RV context (lines 813–820).  Same
dispatch as the transit context, but the resolved `ω` is kept in radians
(the direct parametrization's `ω`, stored in degrees, is scaled by
`π/180`). -/
noncomputable def resolve_ecc_rv (tagf : ℕ → ℕ) (cv : String → ℝ) (i : ℕ) : ℝ × ℝ :=
  if tagf i = 0 then
    (cv ("ecc_p" ++ toString i), cv ("omega_p" ++ toString i) * Real.pi / 180)
  else if tagf i = 1 then
    (Real.sqrt (cv ("ecosomega_p" ++ toString i) ^ 2 + cv ("esinomega_p" ++ toString i) ^ 2),
     arctan2 (cv ("esinomega_p" ++ toString i)) (cv ("ecosomega_p" ++ toString i)))
  else
    (cv ("secosomega_p" ++ toString i) ^ 2 + cv ("sesinomega_p" ++ toString i) ^ 2,
     arctan2 (cv ("sesinomega_p" ++ toString i)) (cv ("secosomega_p" ++ toString i)))

/-- Function `reverse_ld_coeffs(ld_law, q1, q2)` (lines 532–544): converts the sampled
Kipping `q` parameters to the limb-darkening coefficients of each law.  For
the `linear` law (and, vacuously, any unrecognized law, which in the source
would be a setup-time configuration error) the pair is returned as is. -/
noncomputable def reverse_ld_coeffs (ld_law : String) (q1 q2 : ℝ) : ℝ × ℝ :=
  if ld_law = "quadratic" then
    (2 * Real.sqrt q1 * q2, Real.sqrt q1 * (1 - 2 * q2))
  else if ld_law = "squareroot" then
    (Real.sqrt q1 * (1 - 2 * q2), 2 * Real.sqrt q1 * q2)
  else if ld_law = "logarithmic" then
    (1 - Real.sqrt q1 * q2, 1 - Real.sqrt q1)
  else
    (q1, q2)

/-- The parameter set handed to the `batman` transit-model oracle for one
planet (lines 724–731 together with the limb-darkening update of
lines 675–680): `params.t0/per/rp/a/inc/ecc/w/u`. -/
structure BatmanParams where
  t0 : ℝ
  per : ℝ
  rp : ℝ
  a : ℝ
  inc : ℝ
  ecc : ℝ
  w : ℝ
  u : List ℝ

/-- Configuration of the photometric section of `loglike` for a single
instrument without a GP (the immutable data established before sampling):
the transit planet numbering (`numbering_transit`), the eccentricity
parametrization tags (`ecc_parametrization['transit']`), the
`efficient_bp` / `fitrho` flags with the `(pl, pu)` bounds, the instrument
name, its limb-darkening law, and its data arrays
(`t_lc`/`f_lc`/`ferr_lc` restricted to the instrument, of length
`npoints`). -/
structure TransitCfg where
  planets : List ℕ
  tagf : ℕ → ℕ
  efficient_bp : Bool
  fitrho : Bool
  pl : ℝ
  pu : ℝ
  instrument : String
  ldlaw : String
  npoints : ℕ
  flux : ℕ → ℝ
  ferr : ℕ → ℝ

/-- Resolution of `(a, b, p, t0, P)` for one transiting planet
(lines 682–707), branching on `efficient_bp` (sampled `(r1, r2)` versus
direct `(b, p)`) and on `fitrho` (stellar density versus direct `a`). -/
noncomputable def transit_planet_abpt (cfg : TransitCfg) (cv : String → ℝ) (i : ℕ) :
    ℝ × ℝ × ℝ × ℝ × ℝ :=
  let t0 := cv ("t0_p" ++ toString i);
  let P := cv ("P_p" ++ toString i);
  let a := if cfg.fitrho then a_from_rho (cv ("rho")) P else cv ("a_p" ++ toString i);
  if cfg.efficient_bp then
    let bp := efficient_bp_transform cfg.pl cfg.pu
      (cv ("r1_p" ++ toString i)) (cv ("r2_p" ++ toString i));
    (a, bp.1, bp.2, t0, P)
  else
    (a, cv ("b_p" ++ toString i), cv ("p_p" ++ toString i), t0, P)

/-- The geometric-feasibility step of the photometric model (lines 720–723,
733–734): `ecc_factor = (1. + ecc*np.sin(omega*np.pi/180.))/(1. - ecc**2)`,
`inc_inv_factor = (b/a)*ecc_factor`; when `b > 1+p` or
`inc_inv_factor ≥ 1` the planet is geometrically infeasible (`none`, which
the section turns into the floor sentinel), otherwise the inclination fed
to the transit model is `arccos(inc_inv_factor)*180/π` (degrees). -/
noncomputable def transit_geometry_inc (a b p ecc omega : ℝ) : Option ℝ :=
  let ecc_factor := (1 + ecc * Real.sin (omega * Real.pi / 180)) / (1 - ecc ^ 2);
  let inc_inv_factor := (b / a) * ecc_factor;
  if ¬(b > 1 + p ∨ inc_inv_factor ≥ 1) then
    some (Real.arccos inc_inv_factor * 180 / Real.pi)
  else
    none

/-- One full per-planet iteration of the photometric loop (lines 673–734):
update the limb-darkening coefficients, resolve `(a, b, p, t0, P)` and
`(ecc, omega)`, reject when `ecc > ecclim` (line 717) or when geometrically
infeasible, and otherwise return the `batman` parameter set for this
planet. -/
noncomputable def transit_planet_params (cfg : TransitCfg) (cv : String → ℝ) (i : ℕ) :
    Option BatmanParams :=
  let u :=
    if cfg.ldlaw = "linear" then [cv ("q1_" ++ cfg.instrument)]
    else [(reverse_ld_coeffs cfg.ldlaw (cv ("q1_" ++ cfg.instrument))
             (cv ("q2_" ++ cfg.instrument))).1,
          (reverse_ld_coeffs cfg.ldlaw (cv ("q1_" ++ cfg.instrument))
             (cv ("q2_" ++ cfg.instrument))).2];
  let abpt := transit_planet_abpt cfg cv i;
  let eo := resolve_ecc_transit cfg.tagf cv i;
  if eo.1 > ecclim then none
  else
    match transit_geometry_inc abpt.1 abpt.2.1 abpt.2.2.1 eo.1 eo.2 with
    | none => none
    | some inc =>
        some ⟨abpt.2.2.2.1, abpt.2.2.2.2, abpt.2.2.1, abpt.1, inc, eo.1, eo.2, u⟩

/-- Composition of the photometric model of one instrument (lines 669–731):
starting from the unit baseline (`lcones`), multiply the per-planet transit
curves produced by the `batman` oracle; any per-planet rejection aborts the
whole evaluation (`none`). -/
noncomputable def transit_models (cfg : TransitCfg) (oracle : BatmanParams → ℕ → ℝ)
    (cv : String → ℝ) : List ℕ → Option (ℕ → ℝ)
  | [] => some (fun _ => 1)
  | i :: rest =>
      match transit_planet_params cfg cv i with
      | none => none
      | some prm =>
          match transit_models cfg oracle cv rest with
          | none => none
          | some m => some (fun j => m j * oracle prm j)

/-- The photometric section of `loglike` (lines 654–747) for a single
instrument without a GP: the period-ordering gate runs first (lines
655–667) and any failure returns the floor sentinel before any model is
composed; then the per-planet models are composed (any rejection again
gives the sentinel), the instrument affine transform
`model*mdilution + mflux` is applied (lines 738–739), and the white-noise
Gaussian log-likelihood of the residuals is returned with jitter
`sigma_w * 1e-6` (lines 744–747). -/
noncomputable def transit_section (cfg : TransitCfg) (oracle : BatmanParams → ℕ → ℝ)
    (cv : String → ℝ) : ℝ :=
  if periodGate (cfg.planets.map (fun i => cv ("P_p" ++ toString i))) = false then
    floor_sentinel
  else
    match transit_models cfg oracle cv cfg.planets with
    | none => floor_sentinel
    | some m =>
        let inst_model := fun j =>
          m j * cv ("mdilution_" ++ cfg.instrument) + cv ("mflux_" ++ cfg.instrument);
        gaussian_log_likelihood
          ((List.range cfg.npoints).map (fun j => cfg.flux j - inst_model j))
          ((List.range cfg.npoints).map cfg.ferr)
          (cv ("sigma_w_" ++ cfg.instrument) * 1e-6)

/-- The assignment loop at the top of `loglike` (lines 647–651): every free
(non-fixed) parameter's `cvalue` field in the shared `priors` dictionary is
overwritten, in registry order, with the corresponding entry of the
sampler's physical vector `cube`.  `ps0` is the dictionary's previous
state. -/
def assignCvalues (ps0 : String → ℝ) (freeNames : List String) (cube : List ℝ) :
    String → ℝ :=
  (freeNames.zip cube).foldl (fun f nc => Function.update f nc.1 nc.2) ps0

/-- Configuration of the RV section of `loglike` for white-noise instruments
(`rveparamfile is None`): the RV planet numbering (`numbering_rv`), the
eccentricity parametrization tags, the instrument names with their index
sets into the RV data arrays (`t_rv`/`rv_rv`/`rverr_rv`), and the
linear/quadratic trend flags. -/
structure RVConfig where
  freeNames : List String
  numbering : List ℕ
  tagf : ℕ → ℕ
  inames : List String
  indexes : String → List ℕ
  t : ℕ → ℝ
  rv : ℕ → ℝ
  rverr : ℕ → ℝ
  fitrvline : Bool
  fitrvquad : Bool

/-- The per-planet RV loop (lines 807–829): for the `n`-th RV planet (juliet
number `i`), read `K`, `t0`, `P`, resolve `(ecc, omega)`, reject when
`ecc > 1.` (lines 822–824), and otherwise write the five `radvel`
parameters `per/tc/w/e/k` (indexed by `n+1`) into the shared
`radvel_params` state.  Returns the `radvel_params` state as left by the
loop together with `false` when the eccentricity gate fired. -/
noncomputable def rv_planet_loop (tagf : ℕ → ℕ) (cv : String → ℝ) :
    List (ℕ × ℕ) → (String → ℝ) → (String → ℝ) × Bool
  | [], rp => (rp, true)
  | (n, i) :: rest, rp =>
      let K := cv ("K_p" ++ toString i);
      let t0 := cv ("t0_p" ++ toString i);
      let P := cv ("P_p" ++ toString i);
      let eo := resolve_ecc_rv tagf cv i;
      if eo.1 > 1 then (rp, false)
      else
        rv_planet_loop tagf cv rest
          (Function.update (Function.update (Function.update (Function.update
            (Function.update rp ("per" ++ toString (n + 1)) P)
            ("tc" ++ toString (n + 1)) t0)
            ("w" ++ toString (n + 1)) eo.2)
            ("e" ++ toString (n + 1)) eo.1)
            ("k" ++ toString (n + 1)) K)

/-- The function `loglike` for an RV-only run (`lcfilename is None`, no stellar-density
term, `rveparamfile is None`), lines 645–651 and 788–888, with the shared
mutable state made explicit: input states `ps0` (the `priors` dictionary's
`cvalue` fields) and `rp0` (`radvel_params`); the result carries the two
states as left behind by the evaluation together with the returned scalar.
Order of the body: (1) overwrite all free `cvalue`s from `cube`; (2) the RV
period-ordering gate (lines 790–802), whose failure returns the floor
sentinel with `radvel_params` untouched; (3) the per-planet loop writing
`radvel_params`, whose eccentricity gate likewise returns the sentinel,
keeping the parameters written so far; (4) the RV model from the `radvel`
oracle, plus the optional linear/quadratic trend (lines 833–846); (5) the
per-instrument white-noise Gaussian log-likelihoods, summed (lines
848–856). -/
noncomputable def loglike_rv_only (cfg : RVConfig) (oracle : (String → ℝ) → ℕ → ℝ)
    (ps0 rp0 : String → ℝ) (cube : List ℝ) : (String → ℝ) × (String → ℝ) × ℝ :=
  let cv := assignCvalues ps0 cfg.freeNames cube;
  if periodGate (cfg.numbering.map (fun i => cv ("P_p" ++ toString i))) = false then
    (cv, rp0, floor_sentinel)
  else
    let res := rv_planet_loop cfg.tagf cv cfg.numbering.enum rp0;
    if res.2 = false then (cv, res.1, floor_sentinel)
    else
      let rvmodel := fun j =>
        oracle res.1 j
          + (if cfg.fitrvline then
               cv ("rv_slope") * cfg.t j + (-(cv ("rv_tzero")) * cv ("rv_slope"))
             else 0)
          + (if cfg.fitrvquad then
               cv ("rv_quad") * (cfg.t j) ^ 2 + cv ("rv_slope") * cfg.t j
                 + (-(cv ("rv_tzero")) * cv ("rv_slope")
                    - (cv ("rv_tzero")) ^ 2 * cv ("rv_quad"))
             else 0);
      (cv, res.1,
        (cfg.inames.map (fun instr =>
          gaussian_log_likelihood
            ((cfg.indexes instr).map (fun j => cfg.rv j - (rvmodel j + cv ("mu_" ++ instr))))
            ((cfg.indexes instr).map cfg.rverr)
            (cv ("sigma_w_rv_" ++ instr)))).sum)

/-- The `GPVector` allocated at setup for a photometric CeleriteQP kernel:
`np.zeros(5)` (line 379). -/
noncomputable def celeriteQP_GPVector_init_lc : List ℝ := List.replicate 5 0

/-- The `GPVector` allocated at setup for the RV CeleriteQP kernel:
`np.zeros(5)` (line 499) — five entries, although the RV kernel is built
without the jitter term (lines 492–496) and the per-sample marshaling only
ever writes four of them. -/
noncomputable def celeriteQP_GPVector_init_rv : List ℝ := List.replicate 5 0

/-- The per-sample CeleriteQP marshaling for a photometric instrument
(lines 768–779): writes `log B, log L, log Prot, log C, log(sigma_w*1e-6)`
into slots 0–4 of the instrument's `GPVector`.  `B`, `L`, `Prot`, `C` are
the current values of the bound `GP_B_*`, `GP_L_*`, `GP_Prot_*`, `GP_C_*`
parameters and `sigma_w` that of `sigma_w_instrument` (in ppm). -/
noncomputable def celeriteQP_marshal_lc (GPVector : List ℝ) (B L Prot C sigma_w : ℝ) :
    List ℝ :=
  (((((GPVector.set 0 (Real.log B)).set 1 (Real.log L)).set 2
      (Real.log Prot)).set 3 (Real.log C)).set 4 (Real.log (sigma_w * 1e-6)))

/-- The per-sample CeleriteQP marshaling for the RV GP (lines 872–881):
writes `log B, log L, log Prot, log C` into slots 0–3 of `GPVector` and
nothing else (the RV jitters enter the likelihood directly, not the
kernel). -/
noncomputable def celeriteQP_marshal_rv (GPVector : List ℝ) (B L Prot C : ℝ) : List ℝ :=
  ((((GPVector.set 0 (Real.log B)).set 1 (Real.log L)).set 2
      (Real.log Prot)).set 3 (Real.log C))

/-- One entry of the prior registry: the distribution kind string
(`priors[pname]['type']`) and its hyperparameters
(`priors[pname]['value']`). -/
structure PriorEntry where
  ptype : String
  pvals : List ℝ

/-- The `utils.transform_*` quantile functions called by `transform_prior`
(lines 588–596).  They live in the repository's `utils` module, which is
not part of the core source; they are abstract oracles here. -/
structure UtilsTransforms where
  transform_uniform : ℝ → ℝ → ℝ → ℝ
  transform_normal : ℝ → ℝ → ℝ → ℝ
  transform_loguniform : ℝ → ℝ → ℝ → ℝ
  transform_beta : ℝ → ℝ → ℝ → ℝ
  transform_exponential : ℝ → ℝ

/-- Function `transform_prior(val, pinfo)` (lines 586–596): dispatch on the
distribution kind.  The Python function has no trailing `else`, so an
unsupported kind falls through and silently returns `None` — modelled as
`none`. -/
noncomputable def transform_prior (u : UtilsTransforms) (val : ℝ) (pinfo : PriorEntry) :
    Option ℝ :=
  if pinfo.ptype = "uniform" then
    some (u.transform_uniform val (pinfo.pvals.getD 0 0) (pinfo.pvals.getD 1 0))
  else if pinfo.ptype = "normal" then
    some (u.transform_normal val (pinfo.pvals.getD 0 0) (pinfo.pvals.getD 1 0))
  else if pinfo.ptype = "jeffreys" then
    some (u.transform_loguniform val (pinfo.pvals.getD 0 0) (pinfo.pvals.getD 1 0))
  else if pinfo.ptype = "beta" then
    some (u.transform_beta val (pinfo.pvals.getD 0 0) (pinfo.pvals.getD 1 0))
  else if pinfo.ptype = "exponential" then
    some (u.transform_exponential val)
  else
    none

/-- The distribution kinds accepted by the configuration reader.  `fixed`
parameters are excluded from the unit cube by the `prior` loop
(lines 623–631). -/
def supported_types : List String :=
  ["fixed", "uniform", "normal", "jeffreys", "beta", "exponential"]

/-- Modelled from the spec: `utils.readpriors` (called at line 249) parses
the prior file into the registry and, per §4.1/§7(a) of the specification,
treats an unsupported distribution kind as a fatal configuration error at
setup time.  The `utils` module is not part of the core source, so the
validation it performs is modelled as this predicate: setup succeeds only
for a registry whose every entry has a supported kind. -/
def readpriors_validates (reg : List (String × PriorEntry)) : Bool :=
  reg.all (fun p => supported_types.contains p.2.ptype)

/-- The per-sample prior transform loop `prior(cube, ...)` (lines 623–631):
walk the registry in order, skip `fixed` entries, and transform the
`pcounter`-th coordinate of the unit cube through `transform_prior` for the
`pcounter`-th non-fixed entry — modelled by zipping the non-fixed entries
with the cube. -/
noncomputable def prior_map (u : UtilsTransforms) (reg : List (String × PriorEntry))
    (cube : List ℝ) : List (Option ℝ) :=
  (((reg.filter (fun p => p.2.ptype ≠ "fixed")).zip cube).map
    (fun pc => transform_prior u pc.2 pc.1.2))

/-- Modelled from the spec: the inverse of the efficient `(b,p)` map used by
the specification's invertibility test (§8) on the `r1 > Ar` branch, for
the bounds `pl = 0, pu = 1`.  The source only contains the forward map
(lines 692–697); on this branch `b` is affine in `r1` and `p = r2`, so the
inverse is `r1 = 1 + (1-Ar)(b-1)`, `r2 = p`. -/
noncomputable def efficient_bp_inverse_high (b p : ℝ) : ℝ × ℝ :=
  (1 + (1 - Ar 0 1) * (b - 1), p)

/-- Modelled from the spec: the inverse of the efficient `(b,p)` map on the
`r1 ≤ Ar` branch, for the bounds `pl = 0, pu = 1`.  There
`b - p = sqrt(r1/Ar)`, so `r1 = Ar·(b-p)²` and `r2 = (b-1)/(b-p)`. -/
noncomputable def efficient_bp_inverse_low (b p : ℝ) : ℝ × ℝ :=
  (Ar 0 1 * (b - p) ^ 2, (b - 1) / (b - p))

/-! ## Helper lemmas -/

/-- The inner period loop passes exactly when the running period starts a
strictly increasing chain of nonnegative values. -/
lemma periodGateAux_iff (ps : List ℝ) : ∀ cP : ℝ,
    periodGateAux cP ps = true ↔ List.Chain (· < ·) cP ps ∧ ∀ p ∈ ps, 0 ≤ p := by
  induction ps with
  | nil => intro cP; simp [periodGateAux]
  | cons P rest ih =>
      intro cP
      simp only [periodGateAux]
      by_cases h1 : cP < P
      · rw [if_pos h1]
        by_cases h2 : P < 0
        · rw [if_pos h2]
          constructor
          · intro hfalse; exact absurd hfalse (by simp)
          · rintro ⟨-, hall⟩
            exact absurd (hall P (by simp)) (by linarith)
        · rw [if_neg h2, ih P]
          constructor
          · rintro ⟨hc, hall⟩
            refine ⟨List.Chain.cons h1 hc, ?_⟩
            intro p hp
            rcases List.mem_cons.1 hp with rfl | hp
            · linarith
            · exact hall p hp
          · rintro ⟨hc, hall⟩
            exact ⟨(List.chain_cons.1 hc).2, fun p hp => hall p (List.mem_cons_of_mem _ hp)⟩
      · rw [if_neg h1]
        constructor
        · intro hfalse; exact absurd hfalse (by simp)
        · rintro ⟨hc, -⟩
          exact absurd (List.chain_cons.1 hc).1 h1

/-- The period-ordering gate passes exactly when the period list is strictly
increasing and all its entries are nonnegative. -/
lemma periodGate_iff (ps : List ℝ) :
    periodGate ps = true ↔ List.Chain' (· < ·) ps ∧ ∀ p ∈ ps, 0 ≤ p := by
  cases ps with
  | nil => simp [periodGate, List.Chain']
  | cons P0 rest =>
      simp only [periodGate]
      by_cases h : P0 < 0
      · rw [if_pos h]
        constructor
        · intro hfalse; exact absurd hfalse (by simp)
        · rintro ⟨-, hall⟩
          exact absurd (hall P0 (by simp)) (by linarith)
      · rw [if_neg h, periodGateAux_iff]
        have hch : List.Chain' (· < ·) (P0 :: rest) ↔ List.Chain (· < ·) P0 rest := Iff.rfl
        rw [hch]
        constructor
        · rintro ⟨hc, hall⟩
          refine ⟨hc, ?_⟩
          intro p hp
          rcases List.mem_cons.1 hp with rfl | hp
          · linarith
          · exact hall p hp
        · rintro ⟨hc, hall⟩
          exact ⟨hc, fun p hp => hall p (List.mem_cons_of_mem _ hp)⟩

/-- The elementwise sum inside `gaussian_log_likelihood` equals the two sums
of the closed form, provided the lists have equal length. -/
lemma gll_sum_eq (jitter : ℝ) (errors : List ℝ) : ∀ residuals : List ℝ,
    errors.length = residuals.length →
    (((errors.map (fun e => 1 / (e ^ 2 + jitter ^ 2))).zip residuals).map
        (fun tr => Real.log (1 / tr.1) + tr.1 * tr.2 ^ 2)).sum
      = (errors.map (fun e => Real.log (e ^ 2 + jitter ^ 2))).sum
        + ((residuals.zip errors).map (fun re => re.1 ^ 2 / (re.2 ^ 2 + jitter ^ 2))).sum := by
  induction errors with
  | nil =>
      intro rs h
      have : rs = [] := List.length_eq_zero.1 h.symm
      simp [this]
  | cons e es ih =>
      intro rs h
      cases rs with
      | nil => simp at h
      | cons r rs' =>
          simp only [List.map_cons, List.zip_cons_cons, List.sum_cons]
          rw [ih rs' (by simpa using h), one_div_one_div, one_div_mul_eq_div]
          ring

/-- If one planet of the list is rejected, the composed photometric model of
the whole list is rejected. -/
lemma transit_models_none (cfg : TransitCfg) (oracle : BatmanParams → ℕ → ℝ)
    (cv : String → ℝ) (i : ℕ) (h : transit_planet_params cfg cv i = none) :
    ∀ l : List ℕ, i ∈ l → transit_models cfg oracle cv l = none := by
  intro l hl
  induction l with
  | nil => cases hl
  | cons j rest ih =>
      rcases List.mem_cons.1 hl with rfl | hmem
      · simp [transit_models, h]
      · cases hj : transit_planet_params cfg cv j <;>
          simp [transit_models, hj, ih hmem]

/-! ## Claim C2 -/

/-- C2: for every residual vector of length `N`, per-point errors and
jitter, the white-noise log-likelihood contribution accumulated per
instrument without a GP equals the closed form
`-0.5·(N·log(2π) + Σ log(σ_i²+j²) + Σ r_i²/(σ_i²+j²))`. -/
theorem C2_gaussian_log_likelihood_closed_form (residuals errors : List ℝ) (jitter : ℝ)
    (hlen : errors.length = residuals.length)
    (_hpos : ∀ e ∈ errors, 0 < e ^ 2 + jitter ^ 2) :
    gaussian_log_likelihood residuals errors jitter =
      -0.5 * ((residuals.length : ℝ) * Real.log (2 * Real.pi)
        + ((errors.map (fun e => Real.log (e ^ 2 + jitter ^ 2))).sum
           + ((residuals.zip errors).map
                (fun re => re.1 ^ 2 / (re.2 ^ 2 + jitter ^ 2))).sum)) := by
  simp only [gaussian_log_likelihood, log2pi]
  rw [gll_sum_eq jitter errors residuals hlen]

/-- Witness for C2 at the specification's concrete test case: residuals
`[0.1, -0.2, 0.05, 0, 0.15]`, uniform error `0.1`, jitter `0`. -/
theorem C2_gaussian_log_likelihood_closed_form_witness :
    ([(0.1 : ℝ), 0.1, 0.1, 0.1, 0.1].length = [(0.1 : ℝ), -0.2, 0.05, 0, 0.15].length) ∧
    (∀ e ∈ [(0.1 : ℝ), 0.1, 0.1, 0.1, 0.1], 0 < e ^ 2 + (0 : ℝ) ^ 2) ∧
    gaussian_log_likelihood [(0.1 : ℝ), -0.2, 0.05, 0, 0.15] [0.1, 0.1, 0.1, 0.1, 0.1] 0 =
      -0.5 * ((([(0.1 : ℝ), -0.2, 0.05, 0, 0.15].length : ℕ) : ℝ) * Real.log (2 * Real.pi)
        + ((([(0.1 : ℝ), 0.1, 0.1, 0.1, 0.1]).map (fun e => Real.log (e ^ 2 + (0 : ℝ) ^ 2))).sum
           + ((([(0.1 : ℝ), -0.2, 0.05, 0, 0.15]).zip [(0.1 : ℝ), 0.1, 0.1, 0.1, 0.1]).map
                (fun re => re.1 ^ 2 / (re.2 ^ 2 + (0 : ℝ) ^ 2))).sum)) :=
  ⟨by simp, by intro e he; fin_cases he <;> norm_num,
   C2_gaussian_log_likelihood_closed_form [(0.1 : ℝ), -0.2, 0.05, 0, 0.15]
     [0.1, 0.1, 0.1, 0.1, 0.1] 0 (by simp) (by intro e he; fin_cases he <;> norm_num)⟩

/-! ## Claim C4 -/

/-- C4: under the efficient `(b,p)` sampling scheme with bounds `(pl, pu)`
and `Ar = (pu-pl)/(2+pl+pu)`, for `r1 > Ar` the code computes
`b = (1+pl)(1+(r1-1)/(1-Ar))` and `p = (1-r2)pl + r2·pu`, and for
`r1 ≤ Ar` it computes `b = (1+pl) + sqrt(r1/Ar)·r2·(pu-pl)` and
`p = pu + (pl-pu)·sqrt(r1/Ar)·(1-r2)`. -/
theorem C4_efficient_bp_branches (pl pu r1 r2 : ℝ) :
    (r1 > Ar pl pu →
      efficient_bp_transform pl pu r1 r2 =
        ((1 + pl) * (1 + (r1 - 1) / (1 - Ar pl pu)), (1 - r2) * pl + r2 * pu)) ∧
    (r1 ≤ Ar pl pu →
      efficient_bp_transform pl pu r1 r2 =
        ((1 + pl) + Real.sqrt (r1 / Ar pl pu) * r2 * (pu - pl),
         pu + (pl - pu) * Real.sqrt (r1 / Ar pl pu) * (1 - r2))) := by
  constructor
  · intro h
    simp only [efficient_bp_transform]
    rw [if_pos h]
  · intro h
    simp only [efficient_bp_transform]
    rw [if_neg (not_lt.2 h)]

/-- Witness for C4 with `pl = 0, pu = 1` (so `Ar = 1/3`): the branch
`r1 = 1/2 > Ar` and the branch `r1 = 1/4 ≤ Ar`. -/
theorem C4_efficient_bp_branches_witness :
    ((1 : ℝ) / 2 > Ar 0 1 ∧
      efficient_bp_transform 0 1 (1 / 2) (1 / 4) =
        ((1 + 0) * (1 + ((1 : ℝ) / 2 - 1) / (1 - Ar 0 1)),
         (1 - (1 : ℝ) / 4) * 0 + (1 / 4) * 1)) ∧
    ((1 : ℝ) / 4 ≤ Ar 0 1 ∧
      efficient_bp_transform 0 1 (1 / 4) (1 / 4) =
        ((1 + 0) + Real.sqrt ((1 / 4) / Ar 0 1) * (1 / 4) * (1 - 0),
         1 + ((0 : ℝ) - 1) * Real.sqrt ((1 / 4) / Ar 0 1) * (1 - 1 / 4))) :=
  ⟨⟨by norm_num [Ar],
    (C4_efficient_bp_branches 0 1 (1 / 2) (1 / 4)).1 (by norm_num [Ar])⟩,
   ⟨by norm_num [Ar],
    (C4_efficient_bp_branches 0 1 (1 / 4) (1 / 4)).2 (by norm_num [Ar])⟩⟩

/-! ## Claim C1 -/

/-- A two-planet RV-only configuration (planets 1 and 2, direct
eccentricity parametrization, no instruments) used to exercise the period
gate of `loglike`. -/
noncomputable def rvCfgTwo : RVConfig where
  freeNames := ["P_p1", "P_p2"]
  numbering := [1, 2]
  tagf := fun _ => 0
  inames := []
  indexes := fun _ => []
  t := fun _ => 0
  rv := fun _ => 0
  rverr := fun _ => 0
  fitrvline := false
  fitrvquad := false

/-- A single-planet RV-only configuration with one instrument `A` holding
one data point, used to evaluate `loglike` at a sample whose period is
exactly `0`. -/
noncomputable def rvCfgZeroP : RVConfig where
  freeNames := ["P_p1", "t0_p1", "K_p1", "ecc_p1", "omega_p1", "mu_A", "sigma_w_rv_A"]
  numbering := [1]
  tagf := fun _ => 0
  inames := ["A"]
  indexes := fun _ => [0]
  t := fun _ => 0
  rv := fun _ => 0
  rverr := fun _ => 1
  fitrvline := false
  fitrvquad := false

/-- A two-planet transit configuration (single instrument `T`, direct
parametrizations) used to exercise the period gate of the photometric
section. -/
noncomputable def tCfgTwo : TransitCfg where
  planets := [1, 2]
  tagf := fun _ => 0
  efficient_bp := false
  fitrho := false
  pl := 0
  pu := 0
  instrument := "T"
  ldlaw := "quadratic"
  npoints := 0
  flux := fun _ => 0
  ferr := fun _ => 0

/-- C1 counterexample.  The claim as stated fails on the code in two ways:
(i) equal consecutive periods satisfy the claimed `≥` ordering, yet
`loglike` returns the floor sentinel for periods `(3, 3)` (the code
requires strict increase); (ii) a period equal to `0` is non-positive, so
the claim demands the floor sentinel, yet the gate `cP < 0.` does not fire
and `loglike` returns an ordinary log-likelihood value. -/
theorem C1_counterexample :
    (loglike_rv_only rvCfgTwo (fun _ _ => 0) (fun _ => 0) (fun _ => 0) [3, 3]).2.2 =
      floor_sentinel ∧
    (loglike_rv_only rvCfgZeroP (fun _ _ => 0) (fun _ => 0) (fun _ => 0)
        [0, 0, 0, 0, 0, 0, 0]).2.2 ≠ floor_sentinel := by
  constructor
  · have h : periodGate (List.map
        (fun i => assignCvalues (fun _ => 0) rvCfgTwo.freeNames [3, 3]
          ("P_p" ++ toString i)) rvCfgTwo.numbering) = false := by
      simp +decide [assignCvalues, Function.update, rvCfgTwo]
      norm_num [periodGate, periodGateAux]
    simp only [loglike_rv_only]
    rw [if_pos h]
  · have hcv : assignCvalues (fun _ => 0)
        ["P_p1", "t0_p1", "K_p1", "ecc_p1", "omega_p1", "mu_A", "sigma_w_rv_A"]
        [0, 0, 0, 0, 0, 0, 0] = (fun _ => (0 : ℝ)) := by
      funext s
      simp [assignCvalues, Function.update_apply]
    have hπ : Real.log (2 * Real.pi) ≤ 2 * Real.pi - 1 :=
      Real.log_le_sub_one_of_pos (by positivity)
    have h4 : Real.pi ≤ 4 := Real.pi_le_four
    simp only [loglike_rv_only, rvCfgZeroP, hcv]
    norm_num [periodGate, periodGateAux, List.enum, List.enumFrom, rv_planet_loop,
      resolve_ecc_rv, gaussian_log_likelihood, log2pi, floor_sentinel]
    intro heq
    linarith

/-- C1 (amended): for each context (transit and RV) independently, `loglike`
iterates planets in numbering order and requires each resolved period to be
strictly greater than the previous one; any ordering violation, or any
negative period, makes `loglike` return the floor sentinel `-1e101`
immediately, before any model is composed.  Conjunct 1 characterizes the
gate; conjuncts 2 and 3 show a failing gate yields the sentinel for the RV
and photometric sections, for every model oracle (so no model is
consulted), with the `radvel_params` state untouched. -/
theorem C1_period_gate_strict (ps : List ℝ) (cfg : RVConfig)
    (oracle : (String → ℝ) → ℕ → ℝ) (ps0 rp0 : String → ℝ) (cube : List ℝ)
    (tcfg : TransitCfg) (toracle : BatmanParams → ℕ → ℝ) (cv : String → ℝ) :
    (periodGate ps = true ↔ List.Chain' (· < ·) ps ∧ ∀ p ∈ ps, 0 ≤ p) ∧
    (periodGate (cfg.numbering.map
        (fun i => assignCvalues ps0 cfg.freeNames cube ("P_p" ++ toString i))) = false →
      loglike_rv_only cfg oracle ps0 rp0 cube =
        (assignCvalues ps0 cfg.freeNames cube, rp0, floor_sentinel)) ∧
    (periodGate (tcfg.planets.map (fun i => cv ("P_p" ++ toString i))) = false →
      transit_section tcfg toracle cv = floor_sentinel) := by
  refine ⟨periodGate_iff ps, ?_, ?_⟩
  · intro h
    simp only [loglike_rv_only]
    rw [if_pos h]
  · intro h
    simp only [transit_section]
    rw [if_pos h]

/-- Witness for C1: `(3, 5, 10)` passes the gate; a sample assigning
periods `(3, 3)` makes the RV section return the floor sentinel with the
`radvel_params` state untouched; a transit configuration whose two periods
are both `0` (hence not strictly increasing) floors the photometric
section. -/
theorem C1_period_gate_strict_witness :
    periodGate [3, 5, 10] = true ∧
    loglike_rv_only rvCfgTwo (fun _ _ => 0) (fun _ => 0) (fun _ => 0) [3, 3] =
      (assignCvalues (fun _ => 0) rvCfgTwo.freeNames [3, 3], (fun _ => (0 : ℝ)),
        floor_sentinel) ∧
    transit_section tCfgTwo (fun _ _ => 0) (fun _ => 0) = floor_sentinel := by
  refine ⟨?_, ?_, ?_⟩
  · exact (C1_period_gate_strict [3, 5, 10] rvCfgTwo (fun _ _ => 0) (fun _ => 0)
      (fun _ => 0) [3, 3] tCfgTwo (fun _ _ => 0) (fun _ => 0)).1.mpr
      ⟨by norm_num [List.chain'_cons, List.chain'_singleton],
       by intro p hp; fin_cases hp <;> norm_num⟩
  · exact (C1_period_gate_strict [3, 5, 10] rvCfgTwo (fun _ _ => 0) (fun _ => 0)
      (fun _ => 0) [3, 3] tCfgTwo (fun _ _ => 0) (fun _ => 0)).2.1
      (by simp +decide [assignCvalues, Function.update, rvCfgTwo]
          norm_num [periodGate, periodGateAux])
  · exact (C1_period_gate_strict [3, 5, 10] rvCfgTwo (fun _ _ => 0) (fun _ => 0)
      (fun _ => 0) [3, 3] tCfgTwo (fun _ _ => 0) (fun _ => 0)).2.2
      (by norm_num [tCfgTwo, periodGate, periodGateAux])

/-! ## Claim C3 -/

/-- C3: for every transiting planet, the inclination is computed from
`ecc_factor = (1+e·sin(ω))/(1-e²)` (with `ω` held in degrees) and
`inc_inv = (b/a)·ecc_factor`; if `b > 1+p` or `inc_inv ≥ 1` the planet is
rejected — and (conjunct 3) any rejected planet of the configuration makes
the photometric section return the floor sentinel — and otherwise
`inc = arccos(inc_inv)` (converted to degrees) is the inclination fed to
the transit model. -/
theorem C3_inclination_geometry (a b p ecc omega : ℝ) (cfg : TransitCfg)
    (cv : String → ℝ) (oracle : BatmanParams → ℕ → ℝ) (i : ℕ) :
    (b > 1 + p ∨ (b / a) * ((1 + ecc * Real.sin (omega * Real.pi / 180)) / (1 - ecc ^ 2)) ≥ 1 →
      transit_geometry_inc a b p ecc omega = none) ∧
    (¬(b > 1 + p ∨ (b / a) * ((1 + ecc * Real.sin (omega * Real.pi / 180)) / (1 - ecc ^ 2)) ≥ 1) →
      transit_geometry_inc a b p ecc omega =
        some (Real.arccos
          ((b / a) * ((1 + ecc * Real.sin (omega * Real.pi / 180)) / (1 - ecc ^ 2)))
          * 180 / Real.pi)) ∧
    (transit_planet_params cfg cv i = none → i ∈ cfg.planets →
      transit_section cfg oracle cv = floor_sentinel) := by
  refine ⟨?_, ?_, ?_⟩
  · intro h
    simp only [transit_geometry_inc]
    rw [if_neg (not_not_intro h)]
  · intro h
    simp only [transit_geometry_inc]
    rw [if_pos h]
  · intro hnone hmem
    have hm := transit_models_none cfg oracle cv i hnone cfg.planets hmem
    by_cases hg : periodGate (cfg.planets.map (fun j => cv ("P_p" ++ toString j))) = false
    · simp only [transit_section]
      rw [if_pos hg]
    · simp only [transit_section]
      rw [if_neg hg, hm]

/-- A single-planet transit configuration (direct `(b, p)` sampling,
quadratic limb darkening, no data points) used to witness that a rejected
planet floors the photometric section. -/
noncomputable def tCfgOne : TransitCfg where
  planets := [1]
  tagf := fun _ => 0
  efficient_bp := false
  fitrho := false
  pl := 0
  pu := 0
  instrument := "T"
  ldlaw := "quadratic"
  npoints := 0
  flux := fun _ => 0
  ferr := fun _ => 0

/-- Witness for C3: a geometrically infeasible planet (`b = 3 > 1 + p`) is
rejected; a feasible one (`b = 0`, `a = 2`, `e = 0`, `ω = 0`) yields
`inc = arccos(0)·180/π`; and a configuration whose planet 1 is rejected
(here through `ecc = 2`) floors the photometric section. -/
theorem C3_inclination_geometry_witness :
    ((3 : ℝ) > 1 + 0.1 ∨ ((3 : ℝ) / 2) * ((1 + 0 * Real.sin (0 * Real.pi / 180)) / (1 - 0 ^ 2)) ≥ 1) ∧
    transit_geometry_inc 2 3 0.1 0 0 = none ∧
    ¬((0 : ℝ) > 1 + 0.1 ∨ ((0 : ℝ) / 2) * ((1 + 0 * Real.sin (0 * Real.pi / 180)) / (1 - 0 ^ 2)) ≥ 1) ∧
    transit_geometry_inc 2 0 0.1 0 0 =
      some (Real.arccos (((0 : ℝ) / 2) * ((1 + 0 * Real.sin (0 * Real.pi / 180)) / (1 - 0 ^ 2)))
        * 180 / Real.pi) ∧
    transit_planet_params tCfgOne (fun _ => 2) 1 = none ∧
    transit_section tCfgOne (fun _ _ => 0) (fun _ => 2) = floor_sentinel := by
  have h1 : (3 : ℝ) > 1 + 0.1 ∨ ((3 : ℝ) / 2) *
      ((1 + 0 * Real.sin (0 * Real.pi / 180)) / (1 - 0 ^ 2)) ≥ 1 := by
    left; norm_num
  have h2 : ¬((0 : ℝ) > 1 + 0.1 ∨ ((0 : ℝ) / 2) *
      ((1 + 0 * Real.sin (0 * Real.pi / 180)) / (1 - 0 ^ 2)) ≥ 1) := by
    push_neg
    norm_num
  have h3 : transit_planet_params tCfgOne (fun _ => 2) 1 = none := by
    simp only [transit_planet_params, tCfgOne, resolve_ecc_transit]
    norm_num [ecclim]
  refine ⟨h1, ?_, h2, ?_, h3, ?_⟩
  · exact (C3_inclination_geometry 2 3 0.1 0 0 tCfgOne (fun _ => 2) (fun _ _ => 0) 1).1 h1
  · exact (C3_inclination_geometry 2 0 0.1 0 0 tCfgOne (fun _ => 2) (fun _ _ => 0) 1).2.1 h2
  · exact (C3_inclination_geometry 2 0 0.1 0 0 tCfgOne (fun _ => 2) (fun _ _ => 0) 1).2.2 h3
      (by simp [tCfgOne])

/-! ## Claim C5 -/

/-- C5 counterexample: with `pl = 0, pu = 1`, the forward map sends both
`(r1, r2) = (0, 0)` and `(0, 1)` — which lie on the `r1 ≤ Ar` branch of
`[0,1]²` — to the same point `(b, p) = (1, 1)`, so no inverse whatsoever
can recover both `r2` values within `1e-9`: the map is not invertible on
all of `[0,1]²` as claimed. -/
theorem C5_counterexample :
    ¬ ∃ inv : ℝ × ℝ → ℝ × ℝ,
        ∀ r1 r2 : ℝ, 0 ≤ r1 → r1 ≤ 1 → 0 ≤ r2 → r2 ≤ 1 →
          |(inv (efficient_bp_transform 0 1 r1 r2)).1 - r1| ≤ 1e-9 ∧
          |(inv (efficient_bp_transform 0 1 r1 r2)).2 - r2| ≤ 1e-9 := by
  rintro ⟨inv, hinv⟩
  have h0 := (hinv 0 0 le_rfl (by norm_num) le_rfl (by norm_num)).2
  have h1 := (hinv 0 1 le_rfl (by norm_num) (by norm_num) le_rfl).2
  have he : efficient_bp_transform 0 1 0 0 = efficient_bp_transform 0 1 0 1 := by
    norm_num [efficient_bp_transform, Ar]
  rw [he] at h0
  rcases abs_le.1 h0 with ⟨-, hb0⟩
  rcases abs_le.1 h1 with ⟨ha1, -⟩
  norm_num at hb0 ha1
  linarith

/-- C5 (amended): with `pl = 0, pu = 1`, each branch of the map is exactly
invertible away from the degenerate point `r1 = 0`: composing the forward
map with the branch's inverse recovers `(r1, r2)` exactly (hence within
`1e-9`) for every `r1 > Ar` on the upper branch, and for every
`0 < r1 ≤ Ar` on the lower branch. -/
theorem C5_branch_inverse (r1 r2 : ℝ) :
    (Ar 0 1 < r1 →
      efficient_bp_inverse_high (efficient_bp_transform 0 1 r1 r2).1
        (efficient_bp_transform 0 1 r1 r2).2 = (r1, r2)) ∧
    (0 < r1 → r1 ≤ Ar 0 1 →
      efficient_bp_inverse_low (efficient_bp_transform 0 1 r1 r2).1
        (efficient_bp_transform 0 1 r1 r2).2 = (r1, r2)) := by
  have hAr : Ar 0 1 = 1 / 3 := by norm_num [Ar]
  constructor
  · intro h
    have hfwd : efficient_bp_transform 0 1 r1 r2 =
        ((1 + 0) * (1 + (r1 - 1) / (1 - Ar 0 1)), (1 - r2) * 0 + r2 * 1) := by
      simp only [efficient_bp_transform]
      rw [if_pos h]
    rw [hfwd]
    simp only [efficient_bp_inverse_high, Prod.mk.injEq, hAr]
    constructor <;> ring
  · intro h0 hle
    have hfwd : efficient_bp_transform 0 1 r1 r2 =
        ((1 + 0) + Real.sqrt (r1 / Ar 0 1) * r2 * (1 - 0),
         1 + (0 - 1) * Real.sqrt (r1 / Ar 0 1) * (1 - r2)) := by
      simp only [efficient_bp_transform]
      rw [if_neg (not_lt.2 hle)]
    have hsq : Real.sqrt (r1 / Ar 0 1) ^ 2 = r1 / Ar 0 1 :=
      Real.sq_sqrt (by rw [hAr]; positivity)
    have hpos : 0 < Real.sqrt (r1 / Ar 0 1) :=
      Real.sqrt_pos.2 (by rw [hAr]; positivity)
    rw [hfwd]
    simp only [efficient_bp_inverse_low, Prod.mk.injEq]
    have hbp : (1 + 0) + Real.sqrt (r1 / Ar 0 1) * r2 * (1 - 0) -
        (1 + (0 - 1) * Real.sqrt (r1 / Ar 0 1) * (1 - r2)) = Real.sqrt (r1 / Ar 0 1) := by
      ring
    rw [hbp]
    constructor
    · rw [hsq, hAr]
      field_simp
    · have hs : Real.sqrt (r1 / Ar 0 1) ≠ 0 := ne_of_gt hpos
      field_simp

/-- Witness for C5 at `r2 = 1/4`: the upper branch at `r1 = 1/2 > Ar` and
the lower branch at `r1 = 1/6 ≤ Ar` both round-trip exactly. -/
theorem C5_branch_inverse_witness :
    (Ar 0 1 < (1 : ℝ) / 2 ∧
      efficient_bp_inverse_high (efficient_bp_transform 0 1 (1 / 2) (1 / 4)).1
        (efficient_bp_transform 0 1 (1 / 2) (1 / 4)).2 = (1 / 2, 1 / 4)) ∧
    ((0 : ℝ) < 1 / 6 ∧ (1 : ℝ) / 6 ≤ Ar 0 1 ∧
      efficient_bp_inverse_low (efficient_bp_transform 0 1 (1 / 6) (1 / 4)).1
        (efficient_bp_transform 0 1 (1 / 6) (1 / 4)).2 = (1 / 6, 1 / 4)) :=
  ⟨⟨by norm_num [Ar], (C5_branch_inverse (1 / 2) (1 / 4)).1 (by norm_num [Ar])⟩,
   ⟨by norm_num, by norm_num [Ar],
    (C5_branch_inverse (1 / 6) (1 / 4)).2 (by norm_num) (by norm_num [Ar])⟩⟩

/-! ## Claim C6 -/

/-- C6 (amended): the eccentricity gates are strict.  A transiting planet
is rejected exactly when its resolved eccentricity exceeds `ecclim = 0.95`
or the geometry step rejects it (so `e = 0.96` floors and `e = 0.94` does
not, but the boundary `e = 0.95` and negative `e` pass the eccentricity
gate); the RV planet loop fails exactly when some planet's resolved
eccentricity exceeds `1` (so `e = 1` passes). -/
theorem C6_ecc_gate_strict (cfg : TransitCfg) (cv : String → ℝ) (i : ℕ)
    (tagf : ℕ → ℕ) (l : List (ℕ × ℕ)) (rp : String → ℝ) :
    (transit_planet_params cfg cv i = none ↔
      (resolve_ecc_transit cfg.tagf cv i).1 > ecclim ∨
        transit_geometry_inc (transit_planet_abpt cfg cv i).1
          (transit_planet_abpt cfg cv i).2.1 (transit_planet_abpt cfg cv i).2.2.1
          (resolve_ecc_transit cfg.tagf cv i).1 (resolve_ecc_transit cfg.tagf cv i).2 = none) ∧
    ((rv_planet_loop tagf cv l rp).2 = false ↔
      ∃ q ∈ l, (resolve_ecc_rv tagf cv q.2).1 > 1) := by
  constructor
  · simp only [transit_planet_params]
    by_cases h : (resolve_ecc_transit cfg.tagf cv i).1 > ecclim
    · rw [if_pos h]
      simp [h]
    · rw [if_neg h]
      cases hg : transit_geometry_inc (transit_planet_abpt cfg cv i).1
          (transit_planet_abpt cfg cv i).2.1 (transit_planet_abpt cfg cv i).2.2.1
          (resolve_ecc_transit cfg.tagf cv i).1 (resolve_ecc_transit cfg.tagf cv i).2 with
      | none => simp [h]
      | some inc => simp [h]
  · induction l generalizing rp with
    | nil => simp [rv_planet_loop]
    | cons q rest ih =>
        obtain ⟨n, j⟩ := q
        simp only [rv_planet_loop]
        by_cases h : (resolve_ecc_rv tagf cv j).1 > 1
        · rw [if_pos h]
          simp only [List.mem_cons]
          constructor
          · intro _
            exact ⟨(n, j), Or.inl rfl, h⟩
          · intro _
            trivial
        · rw [if_neg h]
          rw [ih]
          constructor
          · rintro ⟨q, hq, hgt⟩
            exact ⟨q, List.mem_cons_of_mem _ hq, hgt⟩
          · rintro ⟨q, hq, hgt⟩
            rcases List.mem_cons.1 hq with rfl | hq
            · exact absurd hgt h
            · exact ⟨q, hq, hgt⟩

/-- The transit parameter state for the C6 counterexample at the
eccentricity boundary: `ecc_p1 = 0.95`, `a_p1 = 2`, all other current
values `0`. -/
noncomputable def cvEcc95 : String → ℝ := fun s =>
  if s = "ecc_p1" then 0.95 else if s = "a_p1" then 2 else 0

/-- The transit parameter state for the C6 counterexample at a negative
eccentricity: `ecc_p1 = -0.5`, `a_p1 = 2`, all other current values
`0`. -/
noncomputable def cvEccNeg : String → ℝ := fun s =>
  if s = "ecc_p1" then -0.5 else if s = "a_p1" then 2 else 0

/-- The RV parameter state for the C6 counterexample at the RV boundary:
`ecc_p1 = 1`, all other current values `0`. -/
noncomputable def cvEccOne : String → ℝ := fun s => if s = "ecc_p1" then 1 else 0

/-- C6 counterexample.  The claim says the transit-affecting eccentricity
must lie in `[0, 0.95)` and the RV eccentricity must satisfy `e < 1`, with
any other value floored.  But the code's gates are strict: the boundary
`e = 0.95` is not rejected (the planet's parameters are marshaled), a
negative `e = -0.5` is not rejected either, and an RV planet with exactly
`e = 1` passes the RV gate. -/
theorem C6_counterexample :
    transit_planet_params tCfgOne cvEcc95 1 ≠ none ∧
    transit_planet_params tCfgOne cvEccNeg 1 ≠ none ∧
    (rv_planet_loop (fun _ => 0) cvEccOne [(0, 1)] (fun _ => 0)).2 = true := by
  refine ⟨?_, ?_, ?_⟩
  · simp +decide only [transit_planet_params, tCfgOne, resolve_ecc_transit,
      transit_planet_abpt, transit_geometry_inc, cvEcc95]
    norm_num [ecclim, Real.sin_zero]
    simp
  · simp +decide only [transit_planet_params, tCfgOne, resolve_ecc_transit,
      transit_planet_abpt, transit_geometry_inc, cvEccNeg]
    norm_num [ecclim, Real.sin_zero]
    simp
  · simp +decide only [rv_planet_loop, resolve_ecc_rv, cvEccOne]
    norm_num

/-! ## Claim C7 -/

/-- C7: for a planet tagged with the cos-sin parametrization (tag 1) the
resolver returns `e = sqrt(ecosω² + esinω²)` and `ω = atan2(esinω, ecosω)`,
and for the sqrt-cos-sin parametrization (tag 2) it returns
`e = secosω² + sesinω²` and `ω = atan2(sesinω, secosω)` — with `ω` scaled
to degrees (`·180/π`) in the transit context and left in radians in the RV
context. -/
theorem C7_ecc_resolver (tagf : ℕ → ℕ) (cv : String → ℝ) (i : ℕ) :
    (tagf i = 1 →
      resolve_ecc_transit tagf cv i =
        (Real.sqrt (cv ("ecosomega_p" ++ toString i) ^ 2 +
            cv ("esinomega_p" ++ toString i) ^ 2),
         arctan2 (cv ("esinomega_p" ++ toString i)) (cv ("ecosomega_p" ++ toString i))
           * 180 / Real.pi) ∧
      resolve_ecc_rv tagf cv i =
        (Real.sqrt (cv ("ecosomega_p" ++ toString i) ^ 2 +
            cv ("esinomega_p" ++ toString i) ^ 2),
         arctan2 (cv ("esinomega_p" ++ toString i)) (cv ("ecosomega_p" ++ toString i)))) ∧
    (tagf i = 2 →
      resolve_ecc_transit tagf cv i =
        (cv ("secosomega_p" ++ toString i) ^ 2 + cv ("sesinomega_p" ++ toString i) ^ 2,
         arctan2 (cv ("sesinomega_p" ++ toString i)) (cv ("secosomega_p" ++ toString i))
           * 180 / Real.pi) ∧
      resolve_ecc_rv tagf cv i =
        (cv ("secosomega_p" ++ toString i) ^ 2 + cv ("sesinomega_p" ++ toString i) ^ 2,
         arctan2 (cv ("sesinomega_p" ++ toString i)) (cv ("secosomega_p" ++ toString i)))) := by
  constructor
  · intro h
    constructor <;>
      simp [resolve_ecc_transit, resolve_ecc_rv, h]
  · intro h
    constructor <;>
      simp [resolve_ecc_transit, resolve_ecc_rv, h]

/-- Witness for C7 with the tag assignment `tagf = id` (planet 1 carries
tag 1, planet 2 carries tag 2) and the all-ones parameter state. -/
theorem C7_ecc_resolver_witness :
    (resolve_ecc_transit (fun n => n) (fun _ => 1) 1 =
        (Real.sqrt ((1 : ℝ) ^ 2 + 1 ^ 2), arctan2 1 1 * 180 / Real.pi) ∧
      resolve_ecc_rv (fun n => n) (fun _ => 1) 1 =
        (Real.sqrt ((1 : ℝ) ^ 2 + 1 ^ 2), arctan2 1 1)) ∧
    (resolve_ecc_transit (fun n => n) (fun _ => 1) 2 =
        ((1 : ℝ) ^ 2 + 1 ^ 2, arctan2 1 1 * 180 / Real.pi) ∧
      resolve_ecc_rv (fun n => n) (fun _ => 1) 2 =
        ((1 : ℝ) ^ 2 + 1 ^ 2, arctan2 1 1)) :=
  ⟨(C7_ecc_resolver (fun n => n) (fun _ => 1) 1).1 rfl,
   (C7_ecc_resolver (fun n => n) (fun _ => 1) 2).2 rfl⟩

/-! ## Claim C8 -/

/-- C8 (code evaluated at the claim's input): with named hyperparameters
`B = 2, L = 5, Prot = 3, C = 1` and jitter `100e-6` (i.e. `sigma_w = 100`
ppm), the photometric CeleriteQP marshaling produces exactly
`[log 2, log 5, log 3, log 1, log(100e-6)]` — but the RV marshaling,
starting from the `np.zeros(5)` allocated at line 499, produces the
length-**5** vector `[log 2, log 5, log 3, log 1, 0]`, not the length-4
vector the claim (and the specification) state: the fifth entry is never
written because the RV kernel has no jitter term. -/
theorem C8_celeriteQP_vector :
    celeriteQP_marshal_lc celeriteQP_GPVector_init_lc 2 5 3 1 100 =
      [Real.log 2, Real.log 5, Real.log 3, Real.log 1, Real.log (100 * 1e-6)] ∧
    celeriteQP_marshal_rv celeriteQP_GPVector_init_rv 2 5 3 1 =
      [Real.log 2, Real.log 5, Real.log 3, Real.log 1, 0] ∧
    (celeriteQP_marshal_rv celeriteQP_GPVector_init_rv 2 5 3 1).length = 5 := by
  refine ⟨?_, ?_, ?_⟩ <;>
    simp [celeriteQP_marshal_lc, celeriteQP_marshal_rv, celeriteQP_GPVector_init_lc,
      celeriteQP_GPVector_init_rv, List.replicate, List.set]

/-! ## Claim C9 -/

/-- C9: when setup validated the registry (every kind supported), every
value produced by the per-sample prior transform loop comes from one of
the five supported dispatch branches of `transform_prior` — it is never
the silent `None` fall-through, for any unit cube and any realization of
the external `utils` transforms. -/
theorem C9_prior_transform_total (u : UtilsTransforms) (reg : List (String × PriorEntry))
    (cube : List ℝ) (o : Option ℝ) (hval : readpriors_validates reg = true)
    (ho : o ∈ prior_map u reg cube) : o ≠ none := by
  rcases List.mem_map.1 ho with ⟨pc, hpc, rfl⟩
  have hmem := (List.of_mem_zip hpc).1
  have hflt := List.mem_filter.1 hmem
  have hnf : pc.1.2.ptype ≠ "fixed" := by simpa using hflt.2
  have hsup : pc.1.2.ptype ∈ supported_types := by
    have hall := List.all_eq_true.1 hval pc.1 hflt.1
    simpa using hall
  rcases (by simpa [supported_types] using hsup :
      pc.1.2.ptype = "fixed" ∨ pc.1.2.ptype = "uniform" ∨ pc.1.2.ptype = "normal" ∨
        pc.1.2.ptype = "jeffreys" ∨ pc.1.2.ptype = "beta" ∨ pc.1.2.ptype = "exponential")
    with h | h | h | h | h | h
  · exact absurd h hnf
  all_goals simp [transform_prior, h]

/-- The abstract `utils` transforms used in the C9 witness (their values
are irrelevant to the dispatch). -/
noncomputable def utilsZero : UtilsTransforms where
  transform_uniform := fun _ _ _ => 0
  transform_normal := fun _ _ _ => 0
  transform_loguniform := fun _ _ _ => 0
  transform_beta := fun _ _ _ => 0
  transform_exponential := fun _ => 0

/-- A two-entry registry for the C9 witness: a free uniform parameter and a
fixed one. -/
noncomputable def regC9 : List (String × PriorEntry) :=
  [("P_p1", ⟨"uniform", [1, 10]⟩), ("t0_p1", ⟨"fixed", [0]⟩)]

/-- Witness for C9: the registry `regC9` passes setup validation, the
transformed value of its single free parameter is an element of the
per-sample transform output, and by the theorem it is not `None`. -/
theorem C9_prior_transform_total_witness :
    readpriors_validates regC9 = true ∧
    transform_prior utilsZero 0.5 ⟨"uniform", [1, 10]⟩ ∈ prior_map utilsZero regC9 [0.5] ∧
    transform_prior utilsZero 0.5 ⟨"uniform", [1, 10]⟩ ≠ none := by
  have hval : readpriors_validates regC9 = true := by
    simp +decide [readpriors_validates, regC9, supported_types]
  have ho : transform_prior utilsZero 0.5 ⟨"uniform", [1, 10]⟩ ∈
      prior_map utilsZero regC9 [0.5] := by
    simp +decide [prior_map, regC9]
  exact ⟨hval, ho,
    C9_prior_transform_total utilsZero regC9 [0.5]
      (transform_prior utilsZero 0.5 ⟨"uniform", [1, 10]⟩) hval ho⟩

/-! ## Claim C10 -/

/-- C10: rejection is not atomic with respect to the shared state.
Whenever the RV eccentricity gate makes `loglike` return the floor
sentinel, the returned `priors` state is exactly the one the sample wrote
at entry (`assignCvalues` — nothing is restored on the error path), and
the returned `radvel_params` state is exactly the partially-updated map
left by the planet loop, which keeps the rejected sample's values for
every planet processed before the gate fired. -/
theorem C10_no_state_restoration (cfg : RVConfig) (oracle : (String → ℝ) → ℕ → ℝ)
    (ps0 rp0 : String → ℝ) (cube : List ℝ)
    (hgate : periodGate (cfg.numbering.map
      (fun i => assignCvalues ps0 cfg.freeNames cube ("P_p" ++ toString i))) = true)
    (hfail : (rv_planet_loop cfg.tagf (assignCvalues ps0 cfg.freeNames cube)
      cfg.numbering.enum rp0).2 = false) :
    loglike_rv_only cfg oracle ps0 rp0 cube =
      (assignCvalues ps0 cfg.freeNames cube,
       (rv_planet_loop cfg.tagf (assignCvalues ps0 cfg.freeNames cube)
         cfg.numbering.enum rp0).1,
       floor_sentinel) := by
  simp only [loglike_rv_only]
  rw [if_neg (by simp [hgate]), if_pos hfail]

/-- A single-planet RV-only configuration whose sample sets the planet's
eccentricity to `1.5`, firing the RV eccentricity gate. -/
noncomputable def rvCfgFail : RVConfig where
  freeNames := ["P_p1", "t0_p1", "K_p1", "ecc_p1", "omega_p1"]
  numbering := [1]
  tagf := fun _ => 0
  inames := ["A"]
  indexes := fun _ => [0]
  t := fun _ => 0
  rv := fun _ => 0
  rverr := fun _ => 1
  fitrvline := false
  fitrvquad := false

/-- Witness for C10: for the sample `(P, t0, K, e, ω) = (3, 0, 10, 1.5, 0)`
the period gate passes, the eccentricity gate fires, and `loglike` returns
the sentinel along with the written (never restored) states. -/
theorem C10_no_state_restoration_witness :
    periodGate (rvCfgFail.numbering.map
      (fun i => assignCvalues (fun _ => 0) rvCfgFail.freeNames [3, 0, 10, 1.5, 0]
        ("P_p" ++ toString i))) = true ∧
    (rv_planet_loop rvCfgFail.tagf
      (assignCvalues (fun _ => 0) rvCfgFail.freeNames [3, 0, 10, 1.5, 0])
      rvCfgFail.numbering.enum (fun _ => 0)).2 = false ∧
    loglike_rv_only rvCfgFail (fun _ _ => 0) (fun _ => 0) (fun _ => 0) [3, 0, 10, 1.5, 0] =
      (assignCvalues (fun _ => 0) rvCfgFail.freeNames [3, 0, 10, 1.5, 0],
       (rv_planet_loop rvCfgFail.tagf
         (assignCvalues (fun _ => 0) rvCfgFail.freeNames [3, 0, 10, 1.5, 0])
         rvCfgFail.numbering.enum (fun _ => 0)).1,
       floor_sentinel) := by
  have hgate : periodGate (rvCfgFail.numbering.map
      (fun i => assignCvalues (fun _ => 0) rvCfgFail.freeNames [3, 0, 10, 1.5, 0]
        ("P_p" ++ toString i))) = true := by
    simp +decide [assignCvalues, Function.update, rvCfgFail]
    norm_num [periodGate, periodGateAux]
  have hfail : (rv_planet_loop rvCfgFail.tagf
      (assignCvalues (fun _ => 0) rvCfgFail.freeNames [3, 0, 10, 1.5, 0])
      rvCfgFail.numbering.enum (fun _ => 0)).2 = false := by
    simp +decide [rvCfgFail, List.enum, List.enumFrom, rv_planet_loop, resolve_ecc_rv,
      assignCvalues, Function.update]
    norm_num
  exact ⟨hgate, hfail,
    C10_no_state_restoration rvCfgFail (fun _ _ => 0) (fun _ => 0) (fun _ => 0)
      [3, 0, 10, 1.5, 0] hgate hfail⟩

end Juliet
